import Mathlib

/-!
Shallow embedding of the SOCKS 6 server worker (serverworker.go, utils.go)
and the protocol constants of the repository, together with theorems about
the handshake driver, reply-code conversion, version-mismatch handler,
relay engine, ICMP error conversion, resource reaper, datagram handling and
authentication-reply construction.
-/

namespace Socks6

/-! ## Protocol constants (socks6.go) -/

def OperationReplySuccess : Nat := 0
def OperationReplyServerFailure : Nat := 1
def OperationReplyNotAllowedByRule : Nat := 2
def OperationReplyNetworkUnreachable : Nat := 3
def OperationReplyHostUnreachable : Nat := 4
def OperationReplyConnectionRefused : Nat := 5
def OperationReplyTTLExpired : Nat := 6
def OperationReplyCommandNotSupported : Nat := 7
def OperationReplyAddressNotSupported : Nat := 8
def OperationReplyTimeout : Nat := 9

def AuthenticationReplySuccess : Nat := 0
def AuthenticationReplyFail : Nat := 1

/-! ## Reply-code conversion (utils.go, getReplyCode)

The Go function inspects the dial error through dynamic type tests:
nil check, assertion to `net.Error`, the `Timeout()` flag, assertion to
`*net.OpError`, a type switch on `opErr.Err` for `*os.SyscallError`, and a
switch on the (platform-normalised) socket errno.  The embedding records
exactly the outcomes of those tests.  `Errno.EOTHER` stands for every errno
other than the four the switch recognises (including a failed assertion of
`t.Err` to `syscall.Errno`, which lands in the same `ServerFailure` result). -/

inductive Errno
  | ENETUNREACH
  | EHOSTUNREACH
  | ECONNREFUSED
  | ETIMEDOUT
  | EOTHER
deriving DecidableEq, Fintype

inductive NetErrorShape
  | notOpError
  | opErrorSyscall (errno : Errno)
  | opErrorOther
deriving DecidableEq, Fintype

structure NetError where
  timeout : Bool
  shape : NetErrorShape
deriving DecidableEq, Fintype

inductive DialError
  | notNetError
  | netError (e : NetError)
deriving DecidableEq, Fintype

def getReplyCode (err : Option DialError) : Nat :=
  match err with
  | none => OperationReplySuccess
  | some .notNetError => OperationReplyServerFailure
  | some (.netError e) =>
    if e.timeout then OperationReplyTimeout
    else
      match e.shape with
      | .notOpError => OperationReplyServerFailure
      | .opErrorOther => OperationReplyServerFailure
      | .opErrorSyscall er =>
        match er with
        | .ENETUNREACH => OperationReplyNetworkUnreachable
        | .EHOSTUNREACH => OperationReplyHostUnreachable
        | .ECONNREFUSED => OperationReplyConnectionRefused
        | .ETIMEDOUT => OperationReplyTimeout
        | .EOTHER => OperationReplyServerFailure

/-- Reply code demanded for a non-timeout `*net.OpError` by the amended
claim: the four recognised errnos map to their codes, everything else to
`ServerFailure`; no errno is recognised as TTL-expired. -/
def amendedErrnoReply (s : NetErrorShape) : Nat :=
  match s with
  | .notOpError => OperationReplyServerFailure
  | .opErrorOther => OperationReplyServerFailure
  | .opErrorSyscall .ENETUNREACH => OperationReplyNetworkUnreachable
  | .opErrorSyscall .EHOSTUNREACH => OperationReplyHostUnreachable
  | .opErrorSyscall .ECONNREFUSED => OperationReplyConnectionRefused
  | .opErrorSyscall .ETIMEDOUT => OperationReplyTimeout
  | .opErrorSyscall .EOTHER => OperationReplyServerFailure

/-! ## Version-mismatch handler (serverworker.go, ReplyVersionSpecificError) -/

def notHttpProxyMsg : String := "This is a SOCKS 6 proxy, not a HTTP proxy"

def httpDoc : String := String.intercalate "\x0d\x0a" [
  "<!DOCTYPE html>",
  "<html><head>",
  "<title>500 Internal Server Error</title>",
  "</head><body>",
  "<h1>500 Internal Server Error</h1>",
  "<p>" ++ notHttpProxyMsg ++ "</p>",
  "</body></html>"]

def httpReply : String := String.intercalate "\x0d\x0a" [
  "HTTP/1.0 500 Internal Server Error",
  "Proxy-Status: SOCKS6Server; error=proxy_configuration_error; details=\"" ++ notHttpProxyMsg ++ "\"",
  "Content-Type: text/html",
  "Content-Length: " ++ toString httpDoc.length,
  "Connection: close",
  "",
  httpDoc]

/-- Byte view of an (ASCII) string, matching Go's `[]byte(s)`. -/
def strBytes (s : String) : List Nat := s.data.map Char.toNat

/-- First bytes treated as HTTP request verbs by the switch. -/
def httpVerbBytes : List Nat :=
  ['c', 'C', 'd', 'D', 'g', 'G', 'h', 'H', 'o', 'O', 'p', 'P', 't', 'T'].map Char.toNat

/-- Bytes written by `ReplyVersionSpecificError` for a given observed
first (version) byte. -/
def versionErrorBytes (version : Nat) : List Nat :=
  if version = 4 then [0, 91]
  else if version = 5 then [5, 255]
  else if version = 6 then [6]
  else if httpVerbBytes.contains version then strBytes httpReply
  else [6]

/-- The handler writes the version-specific bytes and (via `defer`) always
closes the connection; the Bool records the close. -/
def ReplyVersionSpecificError (version : Nat) : List Nat × Bool :=
  (versionErrorBytes version, true)

/-! Helper views used to state the HTTP-reply properties: CRLF line
splitting, the header block (lines before the first empty line), the body
(everything after the first empty line, rejoined), and decimal parsing of
the Content-Length header value. -/

def splitCRLF : List Nat → List (List Nat)
  | [] => [[]]
  | 13 :: 10 :: rest => [] :: splitCRLF rest
  | c :: rest =>
    match splitCRLF rest with
    | [] => [[c]]
    | h :: t => (c :: h) :: t

def joinCRLF : List (List Nat) → List Nat
  | [] => []
  | [x] => x
  | x :: xs => x ++ 13 :: 10 :: joinCRLF xs

def statusLineOf (bs : List Nat) : List Nat := (splitCRLF bs).headD []

def headersOf (bs : List Nat) : List (List Nat) :=
  (splitCRLF bs).takeWhile (fun l => !l.isEmpty)

def bodyOf (bs : List Nat) : List Nat :=
  joinCRLF (((splitCRLF bs).dropWhile (fun l => !l.isEmpty)).drop 1)

def hasProxyStatusHeader (bs : List Nat) : Bool :=
  (headersOf bs).any (fun l => List.isPrefixOf (strBytes "Proxy-Status:") l)

def parseDecimal (ds : List Nat) : Option Nat :=
  if ds.isEmpty then none
  else if ds.all (fun c => 48 ≤ c && c ≤ 57) then
    some (ds.foldl (fun a c => a * 10 + (c - 48)) 0)
  else none

def contentLengthOf (bs : List Nat) : Option Nat :=
  match (headersOf bs).find? (fun l => List.isPrefixOf (strBytes "Content-Length: ") l) with
  | none => none
  | some l => parseDecimal (l.drop (strBytes "Content-Length: ").length)

end Socks6

namespace Socks6

/-! ## Relay engine (utils.go, relay / relayOneDirection)

`relayOneDirection` is embedded as a function over the sequence of I/O
results one direction observes: per loop iteration, the read result
`(nRead, eRead)` and, when a write happens, its result `(nWrite, eWrite)`.
The local `done` variable of the Go code is never assigned and is dead
code.  The function returns the error the Go loop would return, or `none`
while the script is exhausted without a terminating event (the loop is
still running). -/

inductive RelayErr
  | eof
  | shortWrite
  | canceled
  | other (n : Nat)
deriving DecidableEq

structure RelayStep where
  nRead : Nat
  eRead : Option RelayErr
  nWrite : Nat
  eWrite : Option RelayErr
deriving DecidableEq

def relayOneDirection : List RelayStep → Option RelayErr
  | [] => none
  | st :: rest =>
    if 0 < st.nRead then
      match st.eWrite with
      | some e => some e
      | none =>
        if st.nRead ≠ st.nWrite then some RelayErr.shortWrite
        else
          match st.eRead with
          | some e => some e
          | none => relayOneDirection rest
    else
      match st.eRead with
      | some e => some e
      | none => relayOneDirection rest

/-- A step at which the Go loop returns: a read error (EOF included), or,
when bytes were read, a write error or a short write. -/
def stepTerminates (st : RelayStep) : Bool :=
  if 0 < st.nRead then st.eWrite.isSome || st.nRead != st.nWrite || st.eRead.isSome
  else st.eRead.isSome

/-- The `relay` function records the first error delivered by either
direction's pump or by context cancellation (`ctx2.Err()`), waits for the
goroutines, closes both connections by `defer`, and returns `nil` when the
recorded error is `io.EOF`.  The two Booleans record that `c` and `r` are
closed. -/
def relay (firstErr : RelayErr) : Option RelayErr × Bool × Bool :=
  (if firstErr = RelayErr.eof then none else some firstErr, true, true)

/-! ## ICMP error conversion (utils.go, convertICMPError)

ICMP message types are flattened into one enumeration; `ver` selects which
namespace is compared, as in the Go `switch`.  Go's `msg.Body.(*T)` type
assertion panics when the body has a different dynamic type; the embedding
returns `none` for that panic.  The returned header is `Option (List Nat)`
because Go distinguishes the `nil` slice (`return 0, nil, nil`) from the
empty-but-non-nil initial value `[]byte{}`; `ForwardICMP` only short-cuts
on the `nil` one. -/

inductive IcmpType
  | v4DestinationUnreachable
  | v4TimeExceeded
  | v6DestinationUnreachable
  | v6TimeExceeded
  | v6PacketTooBig
  | otherType
deriving DecidableEq

inductive IcmpBody
  | dstUnreach (data : List Nat)
  | timeExceeded (data : List Nat)
  | packetTooBig (data : List Nat)
  | otherBody
deriving DecidableEq

structure IcmpMessage where
  icmpType : IcmpType
  code : Nat
  body : IcmpBody
deriving DecidableEq

inductive UDPErrorType
  | zeroInitial
  | networkUnreachable
  | hostUnreachable
  | ttlExpired
  | datagramTooBig
deriving DecidableEq

inductive AddressType
  | ipv4
  | ipv6
  | domainName
deriving DecidableEq

structure SocksAddr where
  addressType : AddressType
  address : List Nat
deriving DecidableEq

def convertICMPError (msg : IcmpMessage) (ip : List Nat) (ver : Nat) :
    Option (UDPErrorType × Option SocksAddr × Option (List Nat)) :=
  if ver = 4 then
    let reporter := some (SocksAddr.mk AddressType.ipv4 ip)
    match msg.icmpType with
    | .v4DestinationUnreachable =>
      if msg.code = 0 then
        match msg.body with
        | .dstUnreach d => some (UDPErrorType.networkUnreachable, reporter, some d)
        | _ => none
      else if msg.code = 1 then
        match msg.body with
        | .dstUnreach d => some (UDPErrorType.hostUnreachable, reporter, some d)
        | _ => none
      else some (UDPErrorType.zeroInitial, none, none)
    | .v4TimeExceeded =>
      if msg.code = 0 then
        match msg.body with
        | .timeExceeded d => some (UDPErrorType.ttlExpired, reporter, some d)
        | _ => none
      else some (UDPErrorType.zeroInitial, none, none)
    | _ => some (UDPErrorType.zeroInitial, reporter, some [])
  else if ver = 6 then
    let reporter := some (SocksAddr.mk AddressType.ipv6 ip)
    match msg.icmpType with
    | .v6DestinationUnreachable =>
      if msg.code = 0 then
        match msg.body with
        | .dstUnreach d => some (UDPErrorType.networkUnreachable, reporter, some d)
        | _ => none
      else if msg.code = 3 then
        match msg.body with
        | .dstUnreach d => some (UDPErrorType.hostUnreachable, reporter, some d)
        | _ => none
      else some (UDPErrorType.zeroInitial, none, none)
    | .v6TimeExceeded =>
      if msg.code = 0 then
        match msg.body with
        | .timeExceeded d => some (UDPErrorType.ttlExpired, reporter, some d)
        | _ => none
      else some (UDPErrorType.zeroInitial, none, none)
    | .v6PacketTooBig =>
      match msg.body with
      | .timeExceeded d => some (UDPErrorType.datagramTooBig, reporter, some d)
      | _ => none
    | _ => some (UDPErrorType.zeroInitial, reporter, some [])
  else some (UDPErrorType.zeroInitial, none, some [])

/-! ## Resource reaper (serverworker.go, ClearUnusedResource) -/

structure BacklogBindWorker where
  alive : Bool
deriving DecidableEq

structure UdpAssociationEntry where
  alive : Bool
  pair : String
deriving DecidableEq

structure WorkerMaps where
  backlogWorker : List (String × BacklogBindWorker)
  udpAssociation : List (Nat × UdpAssociationEntry)
  reservedUdpAddr : List (String × Nat)
deriving DecidableEq

/-- One tick of the reaper: `Range` over `backlogWorker` deleting dead
workers, then `Range` over `udpAssociation` deleting each dead association
together with the `reservedUdpAddr` entry at its `pair`. -/
def clearTick (s : WorkerMaps) : WorkerMaps :=
  let deadPairs := (s.udpAssociation.filter (fun kv => !kv.2.alive)).map (fun kv => kv.2.pair)
  { backlogWorker := s.backlogWorker.filter (fun kv => kv.2.alive)
    udpAssociation := s.udpAssociation.filter (fun kv => kv.2.alive)
    reservedUdpAddr := s.reservedUdpAddr.filter (fun kv => !(deadPairs.contains kv.1)) }

inductive ReaperEvent
  | tick
  | cancelled
deriving DecidableEq

def iterTick : Nat → WorkerMaps → WorkerMaps
  | 0, s => s
  | n + 1, s => iterTick n (clearTick s)

/-- The reaper loop: each `select` iteration either observes a timer tick
(and walks the maps) or the cancelled context (and returns). -/
def ClearUnusedResource : List ReaperEvent → WorkerMaps → WorkerMaps
  | [], s => s
  | ReaperEvent.cancelled :: _, s => s
  | ReaperEvent.tick :: rest, s => ClearUnusedResource rest (clearTick s)

end Socks6
namespace Socks6

/-! ## Handshake driver data model (serverworker.go)

Authentication replies and operation replies are modelled structurally;
marshalling is the wire codec's job (external to the core).  Writes on the
client stream are recorded as a list of messages.  Stream writes are
modelled as succeeding (the write-failure abort paths of `authn` decide no
claim below). -/

inductive AuthOption
  | methodSelection (method : Nat)
  | authData (method : Nat) (data : List Nat)
deriving DecidableEq

structure AuthenticationReply where
  replyType : Nat
  options : List AuthOption
deriving DecidableEq

def NewAuthenticationReplyWithType (t : Nat) : AuthenticationReply := ⟨t, []⟩

def NewAuthenticationReply : AuthenticationReply := ⟨AuthenticationReplySuccess, []⟩

inductive Msg
  | authReply (r : AuthenticationReply)
  | opReply (code : Nat)
  | raw (bs : List Nat)
deriving DecidableEq

structure ServerAuthenticationResult where
  success : Bool
  continueAuth : Bool
  sessionID : List Nat
  clientName : String
  selectedMethod : Nat
  methodData : Option (List Nat)
deriving DecidableEq

/-- setAuthMethodInfo (serverworker.go): add an
`AuthenticationMethodSelection` option when the selected method is neither
0 nor 0xff, and an `AuthenticationData` option when method data is
non-nil. -/
def setAuthMethodInfo (arep : AuthenticationReply) (result : ServerAuthenticationResult) :
    AuthenticationReply :=
  let arep1 :=
    if result.selectedMethod ≠ 0 ∧ result.selectedMethod ≠ 0xff then
      { arep with options := arep.options ++ [AuthOption.methodSelection result.selectedMethod] }
    else arep
  if result.methodData.isSome then
    { arep1 with options := arep1.options ++
        [AuthOption.authData result.selectedMethod (result.methodData.getD [])] }
  else arep1

instance {ε α : Type} [DecidableEq ε] [DecidableEq α] : DecidableEq (Except ε α) := fun x y =>
  match x, y with
  | .error a, .error b =>
    if h : a = b then isTrue (congrArg Except.error h)
    else isFalse (fun hc => h (Except.error.inj hc))
  | .ok a, .ok b =>
    if h : a = b then isTrue (congrArg Except.ok h)
    else isFalse (fun hc => h (Except.ok.inj hc))
  | .error _, .ok _ => isFalse (fun hc => Except.noConfusion hc)
  | .ok _, .error _ => isFalse (fun hc => Except.noConfusion hc)

/-- Outcome of `Authenticator.Authenticate` plus, for two-stage methods,
the outcome of `ContinueAuthenticate` on the returned channels. -/
structure AuthnScenario where
  result1 : ServerAuthenticationResult
  stage2 : Except Unit ServerAuthenticationResult
deriving DecidableEq

/-- authn (serverworker.go): one-stage success writes an enriched success
reply; one-stage failure writes a bare fail reply (and still returns the
failed result); two-stage writes an enriched interim fail reply, then
either a bare fail reply on a `ContinueAuthenticate` error (returning nil)
or an enriched final reply whose type reflects the stage-2 result. -/
def authn (a : AuthnScenario) : Option ServerAuthenticationResult × List Msg :=
  let r1 := a.result1
  if r1.success then
    (some r1,
      [Msg.authReply (setAuthMethodInfo (NewAuthenticationReplyWithType AuthenticationReplySuccess) r1)])
  else if !r1.continueAuth then
    (some r1, [Msg.authReply (NewAuthenticationReplyWithType AuthenticationReplyFail)])
  else
    let w1 := Msg.authReply (setAuthMethodInfo (NewAuthenticationReplyWithType AuthenticationReplyFail) r1)
    match a.stage2 with
    | .error _ => (none, [w1, Msg.authReply (NewAuthenticationReplyWithType AuthenticationReplyFail)])
    | .ok r2 =>
      let rep := setAuthMethodInfo NewAuthenticationReply r2
      let rep := { rep with replyType :=
        if r2.success then AuthenticationReplySuccess else AuthenticationReplyFail }
      (some r2, [w1, Msg.authReply rep])

inductive ParseError
  | versionMismatch (version : Nat)
  | addrTypeNotSupport
  | otherError
deriving DecidableEq

structure Request where
  commandCode : Nat
  hasAuthAdvert : Bool
  initialDataLength : Nat
  hasStreamId : Bool
  streamId : Nat
deriving DecidableEq

structure SocksConn where
  request : Request
  clientId : String
  session : List Nat
  initialData : List Nat
  streamIdVal : Nat
deriving DecidableEq

/-- handleRequestError (serverworker.go), with the default
`VersionErrorHandler` (`ReplyVersionSpecificError`, which closes the
connection itself): a version mismatch delegates to it; an unsupported
address type writes an authentication-fail reply then an operation reply
`AddressNotSupported` and closes; anything else closes silently.  Returns
the written messages and whether the connection is closed on return. -/
def handleRequestError (e : ParseError) : List Msg × Bool :=
  match e with
  | .versionMismatch v => ([Msg.raw (ReplyVersionSpecificError v).1], (ReplyVersionSpecificError v).2)
  | .addrTypeNotSupport =>
    ([Msg.authReply (NewAuthenticationReplyWithType AuthenticationReplyFail),
      Msg.opReply OperationReplyAddressNotSupported], true)
  | .otherError => ([], true)

/-- One accepted stream's externally determined events, as the handshake
driver observes them: the request parse outcome, whether the initial-data
`io.ReadFull` succeeds, the initial data itself, the authenticator
outcomes, whether a rule is configured and what it answers on this
connection, and whether the command code has a registered handler. -/
structure HandshakeScenario where
  parse : Except ParseError Request
  initDataReadOk : Bool
  initData : List Nat
  auth : AuthnScenario
  ruleConfigured : Bool
  ruleAllows : Bool
  handlerRegistered : Bool
deriving DecidableEq

structure HandshakeResult where
  sc : Option SocksConn
  cmd : Nat
  authr : Option ServerAuthenticationResult
  connClosed : Bool
  writes : List Msg
deriving DecidableEq

/-- handshakeStream (serverworker.go): the scoped-close guard
(`common.NewCancellableDefer`) closes the connection on every return
unless cancelled.  It is cancelled on the parse-error path (where
`handleRequestError` takes over the close) and on ownership transfer to a
command handler. -/
def handshakeStream (s : HandshakeScenario) (prevAuth : Option ServerAuthenticationResult) :
    HandshakeResult :=
  match s.parse with
  | .error e =>
    let we := handleRequestError e
    ⟨none, 0, none, we.2, we.1⟩
  | .ok req =>
    if req.hasAuthAdvert ∧ ¬s.initDataReadOk then ⟨none, 0, none, true, []⟩
    else
      let ar :=
        match prevAuth with
        | some a => (some a, ([] : List Msg))
        | none => authn s.auth
      match ar.1 with
      | none => ⟨none, 0, none, true, ar.2⟩
      | some a =>
        if prevAuth.isNone ∧ !a.success then ⟨none, 0, none, true, ar.2⟩
        else
          let cc : SocksConn :=
            ⟨req, a.clientName, a.sessionID,
              (if req.hasAuthAdvert then s.initData else []),
              if req.hasStreamId then req.streamId else 0⟩
          if s.ruleConfigured ∧ ¬s.ruleAllows then
            ⟨none, req.commandCode, some a, true, ar.2 ++ [Msg.opReply OperationReplyNotAllowedByRule]⟩
          else if ¬s.handlerRegistered then
            ⟨none, req.commandCode, some a, true, ar.2 ++ [Msg.opReply OperationReplyCommandNotSupported]⟩
          else ⟨some cc, req.commandCode, some a, false, ar.2⟩

structure ServeStreamOutcome where
  writes : List Msg
  handlerDispatched : Bool
  sessionConnClosed : Option (List Nat)
  connClosedByServe : Bool
deriving DecidableEq

/-- ServeStream (serverworker.go): handshake with no prior auth result;
when the guard `ar == nil || cc == nil || !ar.Success` fires the
connection is closed and ServeStream returns at once — the
`defer SessionConnClose` is registered only after the guard.  Otherwise
the command handler runs and `SessionConnClose` fires on return. -/
def ServeStream (s : HandshakeScenario) : ServeStreamOutcome :=
  let h := handshakeStream s none
  match h.authr, h.sc with
  | some ar, some _ =>
    if ar.success then ⟨h.writes, true, some ar.sessionID, false⟩
    else ⟨h.writes, false, none, true⟩
  | _, _ => ⟨h.writes, false, none, true⟩

/-! ## Datagram handling (serverworker.go, ServeDatagram / handleFirstDatagram) -/

structure UDPHeader where
  associationID : Nat
deriving DecidableEq

/-- handleFirstDatagram (serverworker.go): a payload that fails to parse
as a SOCKS6 UDP message, or a parsed association id not present in
`udpAssociation`, yields `(nil, nil)`. -/
def handleFirstDatagram (assocs : List (Nat × UdpAssociationEntry))
    (parsed : Except Unit UDPHeader) : Option UdpAssociationEntry × Option UDPHeader :=
  match parsed with
  | .error _ => (none, none)
  | .ok h =>
    match assocs.lookup h.associationID with
    | none => (none, none)
    | some a => (some a, some h)

/-- Modelled from the spec: `handleUdpUp` (udpassociation.go, which is not
under src/) is the uplink pump of §4.5 — it validates the association id
of the message and forwards the payload using the association's UDP
socket, recording the remote peer on the association.  It therefore
dereferences both the message and the association; called with the Go
`nil` association and `nil` message, that dereference panics.  `none`
models the panic, `some ()` a completed call. -/
def handleUdpUp (assoc : Option UdpAssociationEntry) (msg : Option UDPHeader) : Option Unit :=
  match assoc, msg with
  | some _, some _ => some ()
  | _, _ => none

/-- ServeDatagram (serverworker.go): calls `handleFirstDatagram` and then
unconditionally invokes `assoc.handleUdpUp` on its result — there is no
nil check between the two. -/
def ServeDatagram (assocs : List (Nat × UdpAssociationEntry))
    (parsed : Except Unit UDPHeader) : Option Unit :=
  let ah := handleFirstDatagram assocs parsed
  handleUdpUp ah.1 ah.2

end Socks6
namespace Socks6

/-! ## Remaining definitions used by the theorems -/

def hasMethodSelection (r : AuthenticationReply) : Bool :=
  r.options.any (fun o => match o with | .methodSelection _ => true | _ => false)

def hasAuthDataOption (r : AuthenticationReply) : Bool :=
  r.options.any (fun o => match o with | .authData _ _ => true | _ => false)

/-- The option rule of the claim: method-selection present exactly for a
method id other than 0 and 0xff, authentication-data present exactly for
non-nil method data. -/
def optionsMatchResult (rep : AuthenticationReply) (r : ServerAuthenticationResult) : Prop :=
  (hasMethodSelection rep = true ↔ (r.selectedMethod ≠ 0 ∧ r.selectedMethod ≠ 0xff)) ∧
  (hasAuthDataOption rep = true ↔ r.methodData.isSome = true)

/-- A connection whose request parses, authenticates in one stage, and is
then denied by the configured rule. -/
def ruleDenyScenario : HandshakeScenario :=
  { parse := Except.ok ⟨1, false, 0, false, 0⟩
    initDataReadOk := true
    initData := []
    auth := ⟨⟨true, false, [7], "alice", 2, none⟩, Except.error ()⟩
    ruleConfigured := true
    ruleAllows := false
    handlerRegistered := true }

/-- A connection whose request parses, authenticates in two stages
(stage 1 answers continue, stage 2 succeeds), and is then denied by the
configured rule. -/
def ruleDenyTwoStageScenario : HandshakeScenario :=
  { parse := Except.ok ⟨1, false, 0, false, 0⟩
    initDataReadOk := true
    initData := []
    auth := ⟨⟨false, true, [], "alice", 2, none⟩, Except.ok ⟨true, false, [8], "alice", 2, some [3]⟩⟩
    ruleConfigured := true
    ruleAllows := false
    handlerRegistered := true }

/-! ## Theorems -/

set_option maxRecDepth 8000

/-- Helper: `setAuthMethodInfo` on a reply with empty options realises the
option rule. -/
theorem setAuthMethodInfo_options (t : Nat) (r : ServerAuthenticationResult) :
    optionsMatchResult (setAuthMethodInfo ⟨t, []⟩ r) r := by
  by_cases hm : r.selectedMethod ≠ 0 ∧ r.selectedMethod ≠ 0xff <;>
    rcases hd : r.methodData with _ | d <;>
      simp [optionsMatchResult, setAuthMethodInfo, hasMethodSelection, hasAuthDataOption, hm, hd]

/-- C2 counterexample: over the complete (finite) space of dial-error
shapes the conversion never yields `TTLExpired`, refuting the claim's
clause that a TTL-expired dial error is converted to `TTLExpired`. -/
theorem getReplyCode_never_ttl :
    OperationReplyTTLExpired ∉ Finset.image getReplyCode (Finset.univ : Finset (Option DialError)) := by
  decide

/-- C2 (amended): success exactly for a nil error; a timeout error yields
`Timeout`; network-unreachable, host-unreachable, connection-refused and
`ETIMEDOUT` errnos yield their codes and every other error yields
`ServerFailure`; no error yields `TTLExpired`. -/
theorem getReplyCode_spec : ∀ err : Option DialError,
    (getReplyCode err = OperationReplySuccess ↔ err = none) ∧
    (∀ e : NetError, err = some (DialError.netError e) →
      getReplyCode err = if e.timeout then OperationReplyTimeout else amendedErrnoReply e.shape) ∧
    (err = some DialError.notNetError → getReplyCode err = OperationReplyServerFailure) ∧
    getReplyCode err ≠ OperationReplyTTLExpired := by
  decide

/-- Witness for `getReplyCode_spec` at a host-unreachable errno. -/
theorem getReplyCode_spec_witness :
    getReplyCode (some (DialError.netError ⟨false, NetErrorShape.opErrorSyscall Errno.EHOSTUNREACH⟩)) =
      OperationReplyHostUnreachable := by
  have h := (getReplyCode_spec
    (some (DialError.netError ⟨false, NetErrorShape.opErrorSyscall Errno.EHOSTUNREACH⟩))).2.1
    ⟨false, NetErrorShape.opErrorSyscall Errno.EHOSTUNREACH⟩ rfl
  simpa [amendedErrnoReply] using h

/-- C3: first byte 4 yields exactly 0x00 0x5B, 5 yields 0x05 0xFF, 6 and
every unrecognised byte yield the single byte 0x06, each HTTP verb byte
yields the HTTP reply — whose status line is exactly
`HTTP/1.0 500 Internal Server Error`, which carries a Proxy-Status header
and whose body length equals its Content-Length value — and the
connection is closed in every case. -/
theorem ReplyVersionSpecificError_spec :
    (ReplyVersionSpecificError 4).1 = [0, 0x5B] ∧
    (ReplyVersionSpecificError 5).1 = [5, 0xFF] ∧
    (ReplyVersionSpecificError 6).1 = [6] ∧
    (∀ b, httpVerbBytes.contains b = true → (ReplyVersionSpecificError b).1 = strBytes httpReply) ∧
    statusLineOf (strBytes httpReply) = strBytes "HTTP/1.0 500 Internal Server Error" ∧
    hasProxyStatusHeader (strBytes httpReply) = true ∧
    contentLengthOf (strBytes httpReply) = some (bodyOf (strBytes httpReply)).length ∧
    (∀ b, b ≠ 4 → b ≠ 5 → b ≠ 6 → httpVerbBytes.contains b = false →
      (ReplyVersionSpecificError b).1 = [6]) ∧
    (∀ b, (ReplyVersionSpecificError b).2 = true) := by
  refine ⟨by decide, by decide, by decide, ?_, by decide, by decide, by decide, ?_, fun b => rfl⟩
  · intro b hb
    have hb' : b ∈ httpVerbBytes := by simpa using hb
    fin_cases hb' <;> decide
  · intro b h4 h5 h6 hc
    have hc' : b ∉ httpVerbBytes := by simpa using hc
    simp [ReplyVersionSpecificError, versionErrorBytes, h4, h5, h6, hc']

/-- Witness for `ReplyVersionSpecificError_spec` at first byte G (71) and
at an unrecognised byte 42. -/
theorem ReplyVersionSpecificError_spec_witness :
    (ReplyVersionSpecificError 71).1 = strBytes httpReply ∧ (ReplyVersionSpecificError 42).1 = [6] := by
  obtain ⟨-, -, -, hverb, -, -, -, hdef, -⟩ := ReplyVersionSpecificError_spec
  exact ⟨hverb 71 (by decide), hdef 42 (by decide) (by decide) (by decide) (by decide)⟩

/-- C4: one relay direction keeps running exactly while no read error
(EOF included), write error or short write occurs; a short write is fatal
(`io.ErrShortWrite`); the relay returns success exactly when the recorded
error is `io.EOF`; and both endpoints are closed on return. -/
theorem relay_spec :
    (∀ steps : List RelayStep, relayOneDirection steps = none ↔
      ∀ st ∈ steps, stepTerminates st = false) ∧
    (∀ st rest, 0 < st.nRead → st.eWrite = none → st.nRead ≠ st.nWrite →
      relayOneDirection (st :: rest) = some RelayErr.shortWrite) ∧
    (∀ e : RelayErr, (relay e).1 = none ↔ e = RelayErr.eof) ∧
    (∀ e : RelayErr, (relay e).2.1 = true ∧ (relay e).2.2 = true) := by
  refine ⟨?_, ?_, ?_, fun e => ⟨rfl, rfl⟩⟩
  · intro steps
    induction steps with
    | nil => simp [relayOneDirection]
    | cons st rest ih =>
      rcases st with ⟨nR, eR, nW, eW⟩
      by_cases h0 : 0 < nR
      · cases eW with
        | some e => simp [relayOneDirection, stepTerminates, h0]
        | none =>
          by_cases hsw : nR ≠ nW
          · simp [relayOneDirection, stepTerminates, h0, hsw]
          · have hnm : nR = nW := not_ne_iff.mp hsw
            cases eR with
            | some e => simp [relayOneDirection, stepTerminates, h0, hnm]
            | none => simp [relayOneDirection, stepTerminates, h0, hnm, ih]
      · cases eR with
        | some e => simp [relayOneDirection, stepTerminates, h0]
        | none => simp [relayOneDirection, stepTerminates, h0, ih]
  · intro st rest h0 hw hsw
    simp [relayOneDirection, h0, hw, hsw]
  · intro e
    by_cases he : e = RelayErr.eof <;> simp [relay, he]

/-- Witness for `relay_spec`: a 4-byte read answered by a 2-byte write is
fatal with a short-write error. -/
theorem relay_spec_witness : relayOneDirection [⟨4, none, 2, none⟩] = some RelayErr.shortWrite :=
  relay_spec.2.1 ⟨4, none, 2, none⟩ [] (by decide) rfl (by decide)

end Socks6
namespace Socks6

set_option maxRecDepth 8000

/-- C5: evaluation at the failing input.  A real ICMPv6 Packet-Too-Big
message carries a `*icmp.PacketTooBig` body, and the conversion's
`msg.Body.(*icmp.TimeExceeded)` assertion panics on it (modelled as
`none`) instead of producing the intended `DatagramTooBig` feedback; the
neighbouring destination-unreachable branch, by contrast, converts
correctly. -/
theorem convertICMPError_packetTooBig_panics :
    convertICMPError ⟨IcmpType.v6PacketTooBig, 0, IcmpBody.packetTooBig [65]⟩ [1] 6 = none ∧
    convertICMPError ⟨IcmpType.v6DestinationUnreachable, 3, IcmpBody.dstUnreach [65]⟩ [1] 6 =
      some (UDPErrorType.hostUnreachable, some ⟨AddressType.ipv6, [1]⟩, some [65]) ∧
    convertICMPError ⟨IcmpType.v4DestinationUnreachable, 0, IcmpBody.dstUnreach [66]⟩ [9] 4 =
      some (UDPErrorType.networkUnreachable, some ⟨AddressType.ipv4, [9]⟩, some [66]) := by
  refine ⟨rfl, rfl, rfl⟩

/-- C6: one reaper tick deletes exactly the backlog workers and UDP
associations whose alive flag is false, deletes the reservation entry at a
deleted association's pair, leaves live entries in place, and the reaper
processes every tick that precedes the context cancellation. -/
theorem ClearUnusedResource_spec :
    (∀ s k v, (k, v) ∈ s.backlogWorker →
      ((k, v) ∈ (clearTick s).backlogWorker ↔ v.alive = true)) ∧
    (∀ s k v, (k, v) ∈ s.udpAssociation →
      ((k, v) ∈ (clearTick s).udpAssociation ↔ v.alive = true)) ∧
    (∀ s k v, (k, v) ∈ s.udpAssociation → v.alive = false →
      ∀ id, (v.pair, id) ∉ (clearTick s).reservedUdpAddr) ∧
    (∀ n rest s,
      ClearUnusedResource (List.replicate n ReaperEvent.tick ++ ReaperEvent.cancelled :: rest) s =
        iterTick n s) := by
  refine ⟨?_, ?_, ?_, ?_⟩
  · intro s k v h
    simp [clearTick, List.mem_filter, h]
  · intro s k v h
    simp [clearTick, List.mem_filter, h]
  · intro s k v h halive id hmem
    have hpair : ((s.udpAssociation.filter (fun kv => !kv.2.alive)).map
        (fun kv => kv.2.pair)).contains v.pair = true := by
      have hm : v.pair ∈ (s.udpAssociation.filter (fun kv => !kv.2.alive)).map
          (fun kv => kv.2.pair) :=
        List.mem_map.mpr ⟨(k, v), List.mem_filter.mpr ⟨h, by simp [halive]⟩, rfl⟩
      simpa using hm
    simp only [clearTick] at hmem
    have hc := (List.mem_filter.mp hmem).2
    rw [Bool.not_eq_true'] at hc
    rw [hpair] at hc
    simp at hc
  · intro n rest
    induction n with
    | zero => intro s; rfl
    | succ m ih => intro s; simpa [List.replicate_succ, ClearUnusedResource, iterTick] using ih (clearTick s)

/-- Witness for `ClearUnusedResource_spec`: a dead association's
reservation is gone after the tick. -/
theorem ClearUnusedResource_spec_witness :
    ("p", 1) ∉ (clearTick ⟨[], [(1, ⟨false, "p"⟩)], [("p", 1)]⟩).reservedUdpAddr :=
  ClearUnusedResource_spec.2.2.1 ⟨[], [(1, ⟨false, "p"⟩)], [("p", 1)]⟩ 1 ⟨false, "p"⟩
    (by decide) rfl 1

/-- C9: evaluation at the failing inputs.  On a payload that does not
parse, and on a parsed association id with no live association,
`handleFirstDatagram` returns the Go nil pair and `ServeDatagram` then
invokes `handleUdpUp` on the nil association without any check, which
dereferences nil and panics (modelled as `none`); a matching association
id is handled normally. -/
theorem ServeDatagram_nil_panics :
    ServeDatagram [] (Except.error ()) = none ∧
    ServeDatagram [(5, ⟨true, "p"⟩)] (Except.ok ⟨9⟩) = none ∧
    ServeDatagram [(5, ⟨true, "p"⟩)] (Except.ok ⟨5⟩) = some () := by
  decide

/-- C10 counterexample: for the one-stage failed authentication result
with selected method 2 and non-nil method data, the driver writes the bare
fail reply, which carries neither an `AuthenticationMethodSelection` nor
an `AuthenticationData` option although the method id is neither 0 nor
0xff and method data is present — refuting the claimed "exactly when". -/
theorem authn_bare_fail_reply_cx :
    (authn ⟨⟨false, false, [], "", 2, some [9]⟩, Except.error ()⟩).2 =
      [Msg.authReply ⟨AuthenticationReplyFail, []⟩] ∧
    hasMethodSelection ⟨AuthenticationReplyFail, []⟩ = false ∧
    hasAuthDataOption ⟨AuthenticationReplyFail, []⟩ = false ∧
    ((2 : Nat) ≠ 0 ∧ (2 : Nat) ≠ 0xff) ∧
    (some [9] : Option (List Nat)).isSome = true := by
  decide

/-- C10 (amended): every authentication reply the driver enriches via
`setAuthMethodInfo` — the one-stage success reply, the two-stage interim
reply and the two-stage final reply — contains a method-selection option
exactly when the selected method id is neither 0 nor 0xff and an
authentication-data option exactly when method data is present, while the
bare failure replies (one-stage failure, stage-2 error) carry no such
options. -/
theorem authn_reply_options :
    (∀ a : AuthnScenario, a.result1.success = true →
      (authn a).2 = [Msg.authReply (setAuthMethodInfo (NewAuthenticationReplyWithType AuthenticationReplySuccess) a.result1)] ∧
      optionsMatchResult (setAuthMethodInfo (NewAuthenticationReplyWithType AuthenticationReplySuccess) a.result1) a.result1) ∧
    (∀ a : AuthnScenario, ∀ r2, a.result1.success = false → a.result1.continueAuth = true →
      a.stage2 = Except.ok r2 →
      (authn a).2 =
        [Msg.authReply (setAuthMethodInfo (NewAuthenticationReplyWithType AuthenticationReplyFail) a.result1),
         Msg.authReply { setAuthMethodInfo NewAuthenticationReply r2 with replyType :=
            if r2.success then AuthenticationReplySuccess else AuthenticationReplyFail }] ∧
      optionsMatchResult (setAuthMethodInfo (NewAuthenticationReplyWithType AuthenticationReplyFail) a.result1) a.result1 ∧
      optionsMatchResult { setAuthMethodInfo NewAuthenticationReply r2 with replyType :=
            if r2.success then AuthenticationReplySuccess else AuthenticationReplyFail } r2) ∧
    (∀ a : AuthnScenario, ∀ u, a.result1.success = false → a.result1.continueAuth = true →
      a.stage2 = Except.error u →
      (authn a).2 =
        [Msg.authReply (setAuthMethodInfo (NewAuthenticationReplyWithType AuthenticationReplyFail) a.result1),
         Msg.authReply ⟨AuthenticationReplyFail, []⟩] ∧
      optionsMatchResult (setAuthMethodInfo (NewAuthenticationReplyWithType AuthenticationReplyFail) a.result1) a.result1) ∧
    (∀ a : AuthnScenario, a.result1.success = false → a.result1.continueAuth = false →
      (authn a).2 = [Msg.authReply ⟨AuthenticationReplyFail, []⟩] ∧
      hasMethodSelection ⟨AuthenticationReplyFail, []⟩ = false ∧
      hasAuthDataOption ⟨AuthenticationReplyFail, []⟩ = false) := by
  have hupd : ∀ (rep : AuthenticationReply) (t : Nat) (r : ServerAuthenticationResult),
      optionsMatchResult rep r → optionsMatchResult { rep with replyType := t } r := by
    intro rep t r h
    exact h
  refine ⟨?_, ?_, ?_, ?_⟩
  · intro a hs
    exact ⟨by simp [authn, hs, NewAuthenticationReplyWithType],
      setAuthMethodInfo_options AuthenticationReplySuccess a.result1⟩
  · intro a r2 hs hc h2
    refine ⟨by simp [authn, hs, hc, h2, NewAuthenticationReplyWithType, NewAuthenticationReply], ?_, ?_⟩
    · exact setAuthMethodInfo_options AuthenticationReplyFail a.result1
    · exact hupd _ _ _ (setAuthMethodInfo_options AuthenticationReplySuccess r2)
  · intro a u hs hc h2
    exact ⟨by simp [authn, hs, hc, h2, NewAuthenticationReplyWithType],
      setAuthMethodInfo_options AuthenticationReplyFail a.result1⟩
  · intro a hs hc
    exact ⟨by simp [authn, hs, hc, NewAuthenticationReplyWithType], by decide, by decide⟩

/-- Witness for `authn_reply_options` on a one-stage success with method
2 and method data: the written reply realises the option rule. -/
theorem authn_reply_options_witness :
    optionsMatchResult
      (setAuthMethodInfo (NewAuthenticationReplyWithType AuthenticationReplySuccess)
        ⟨true, false, [], "", 2, some [3]⟩)
      ⟨true, false, [], "", 2, some [3]⟩ :=
  (authn_reply_options.1 ⟨⟨true, false, [], "", 2, some [3]⟩, Except.error ()⟩ rfl).2

end Socks6
namespace Socks6

set_option maxRecDepth 8000

/-- C7: the handshake driver's scoped-close guard — whenever the driver
returns without a `SocksConn` the stream has been closed, and whenever it
returns a `SocksConn` the guard was disarmed and the stream is open. -/
theorem handshakeStream_close_guard (s : HandshakeScenario)
    (prev : Option ServerAuthenticationResult) :
    ((handshakeStream s prev).sc = none → (handshakeStream s prev).connClosed = true) ∧
    (∀ cc, (handshakeStream s prev).sc = some cc → (handshakeStream s prev).connClosed = false) := by
  cases hp : s.parse with
  | error e =>
    cases e <;> simp [handshakeStream, hp, handleRequestError, ReplyVersionSpecificError]
  | ok req =>
    cases prev with
    | some a =>
      cases hA : req.hasAuthAdvert <;> cases hI : s.initDataReadOk <;>
        cases hRC : s.ruleConfigured <;> cases hRA : s.ruleAllows <;>
          cases hH : s.handlerRegistered <;>
            simp [handshakeStream, hp, hA, hI, hRC, hRA, hH]
    | none =>
      cases ha : (authn s.auth).1 with
      | none =>
        cases hA : req.hasAuthAdvert <;> cases hI : s.initDataReadOk <;>
          simp [handshakeStream, hp, hA, hI, ha]
      | some a =>
        cases hS : a.success <;>
          cases hA : req.hasAuthAdvert <;> cases hI : s.initDataReadOk <;>
            cases hRC : s.ruleConfigured <;> cases hRA : s.ruleAllows <;>
              cases hH : s.handlerRegistered <;>
                simp [handshakeStream, hp, hA, hI, hRC, hRA, hH, ha, hS]

/-- Witness for `handshakeStream_close_guard`: a stream whose request does
not parse is closed by the time the driver returns. -/
theorem handshakeStream_close_guard_witness :
    (handshakeStream ⟨Except.error ParseError.otherError, true, [],
      ⟨⟨true, false, [], "", 0, none⟩, Except.error ()⟩, false, true, true⟩ none).connClosed = true :=
  (handshakeStream_close_guard ⟨Except.error ParseError.otherError, true, [],
      ⟨⟨true, false, [], "", 0, none⟩, Except.error ()⟩, false, true, true⟩ none).1 rfl

/-- C8: an address-type-unsupported parse error writes an authentication
reply of type fail, then an operation reply with code
`AddressNotSupported`, and the connection is closed; a parse error that is
neither a version mismatch nor address-type-unsupported closes the
connection with nothing written. -/
theorem handleRequestError_spec :
    handleRequestError ParseError.addrTypeNotSupport =
      ([Msg.authReply (NewAuthenticationReplyWithType AuthenticationReplyFail),
        Msg.opReply OperationReplyAddressNotSupported], true) ∧
    handleRequestError ParseError.otherError = ([], true) :=
  ⟨rfl, rfl⟩

/-- C1 counterexample: on the concrete rule-denied connection
`ruleDenyScenario` the driver does write the `NotAllowedByRule` operation
reply, returns the command code with no `SocksConn`, and the handler is
not dispatched — but `ServeStream` returns without invoking
`SessionConnClose` (the claim asserts the authenticator is notified with
the authenticated session id, here `[7]`). -/
theorem ServeStream_rule_denial_cx :
    (handshakeStream ruleDenyScenario none).sc = none ∧
    (handshakeStream ruleDenyScenario none).cmd = 1 ∧
    (handshakeStream ruleDenyScenario none).writes.getLast? =
      some (Msg.opReply OperationReplyNotAllowedByRule) ∧
    (ServeStream ruleDenyScenario).handlerDispatched = false ∧
    (ServeStream ruleDenyScenario).sessionConnClosed = none ∧
    (ServeStream ruleDenyScenario).sessionConnClosed ≠
      some ruleDenyScenario.auth.result1.sessionID := by
  refine ⟨rfl, rfl, rfl, rfl, rfl, by decide⟩

/-- C1 (amended): for every accepted stream whose request parses and
authenticates successfully but is denied by the configured rule, the
driver writes the `NotAllowedByRule` operation reply after the
authentication replies and returns the command code with no `SocksConn`;
`ServeStream` then closes the connection and returns at once — the command
handler is not dispatched and `SessionConnClose` is not invoked. -/
theorem ServeStream_rule_denial (s : HandshakeScenario) (req : Request)
    (a : ServerAuthenticationResult)
    (hp : s.parse = Except.ok req)
    (hid : req.hasAuthAdvert = false ∨ s.initDataReadOk = true)
    (ha : (authn s.auth).1 = some a)
    (hs : a.success = true)
    (hrc : s.ruleConfigured = true) (hra : s.ruleAllows = false) :
    (handshakeStream s none).sc = none ∧
    (handshakeStream s none).cmd = req.commandCode ∧
    (handshakeStream s none).authr = some a ∧
    (handshakeStream s none).writes =
      (authn s.auth).2 ++ [Msg.opReply OperationReplyNotAllowedByRule] ∧
    (ServeStream s).handlerDispatched = false ∧
    (ServeStream s).sessionConnClosed = none ∧
    (ServeStream s).connClosedByServe = true := by
  have hh : handshakeStream s none =
      ⟨none, req.commandCode, some a, true,
        (authn s.auth).2 ++ [Msg.opReply OperationReplyNotAllowedByRule]⟩ := by
    rcases hid with h | h <;> simp [handshakeStream, hp, ha, hs, hrc, hra, h]
  refine ⟨by rw [hh], by rw [hh], by rw [hh], by rw [hh], ?_, ?_, ?_⟩ <;>
    simp [ServeStream, hh]

/-- Witness for `ServeStream_rule_denial` at the concrete two-stage
connection `ruleDenyTwoStageScenario`: the authenticator's stage-2 result
succeeds (so the rule check is reached through the two-stage path), the
rule denies, and `ServeStream` skips both dispatch and session cleanup. -/
theorem ServeStream_rule_denial_witness :
    (ServeStream ruleDenyTwoStageScenario).sessionConnClosed = none ∧
    (ServeStream ruleDenyTwoStageScenario).handlerDispatched = false ∧
    (handshakeStream ruleDenyTwoStageScenario none).sc = none :=
  have h := ServeStream_rule_denial ruleDenyTwoStageScenario ⟨1, false, 0, false, 0⟩
    ⟨true, false, [8], "alice", 2, some [3]⟩ rfl (Or.inl rfl) rfl rfl rfl rfl
  ⟨h.2.2.2.2.2.1, h.2.2.2.2.1, h.1⟩

end Socks6
